import Mathlib

/-!
Shallow embedding of the seat-reservation core of the bus-reservation
system: the data model of `bus_app/models.py`, the service layer of
`bus_app/services.py`, and the booking-related request handlers of
`frontend/views.py` and `bus_app/views.py`.

Conventions of the embedding:
* Timestamps are integers counting seconds; `now` is threaded explicitly
  into every operation that the source reads from the ambient clock.
* The relational store is three association lists keyed by primary key.
* A Django `ValidationError` (its message) and an `Http404` become
  constructors of the `Err` type; every operation returns `Except Err _`
  and an erroring operation leaves the store untouched, which models the
  enclosing `transaction.atomic` blocks.
* `Model.save` runs `full_clean` and then writes the row, and inserts and
  updates additionally enforce the partial unique constraint
  `unique_active_seat_per_trip` of `Booking.Meta`, as the database does.
* Fields that no booking logic reads (prices, display names, audit
  timestamps) are omitted.
-/

namespace BusRes

inductive TripStatus
  | scheduled
  | completed
  | cancelled
deriving DecidableEq

inductive PaymentStatus
  | pending
  | paid
  | failed
  | refunded
deriving DecidableEq

/-- `Bus` from models.py: only `capacity` and `is_available` feed the core. -/
structure Bus where
  capacity : Nat
  is_available : Bool
deriving DecidableEq

/-- `Trip` from models.py (bus reference, schedule, status flags). -/
structure Trip where
  busId : Nat
  departure_time : Int
  arrival_time : Int
  is_active : Bool
  status : TripStatus
deriving DecidableEq

/-- `Booking` from models.py (user and trip references, seat, state flags). -/
structure Booking where
  userId : Nat
  tripId : Nat
  seat_number : Nat
  is_confirmed : Bool
  is_cancelled : Bool
  payment_status : PaymentStatus
  hold_expires_at : Option Int
deriving DecidableEq

/-- The relational store: rows of the three tables keyed by primary key. -/
structure Store where
  buses : List (Nat × Bus)
  trips : List (Nat × Trip)
  bookings : List (Nat × Booking)
deriving DecidableEq

def Store.empty : Store := ⟨[], [], []⟩

def Store.findBus (s : Store) (pk : Nat) : Option Bus :=
  (s.buses.find? (fun p => decide (p.1 = pk))).map Prod.snd

def Store.findTrip (s : Store) (pk : Nat) : Option Trip :=
  (s.trips.find? (fun p => decide (p.1 = pk))).map Prod.snd

def Store.findBooking (s : Store) (pk : Nat) : Option Booking :=
  (s.bookings.find? (fun p => decide (p.1 = pk))).map Prod.snd

/-- Each raise site of the source, by message / exception class. -/
inductive Err
  | notFound
  | tripNotActive
  | tripCancelledService
  | tripDepartedService
  | tripCancelledClean
  | seatExceedsCapacity
  | seatAlreadyBooked
  | tripFullyBooked
  | uniqueConstraint
  | notOwner
  | alreadyCancelled
  | tripCompletedErr
  | tooLateToCancel
  | onlyScheduledCompletable
  | tripAlreadyCancelled
  | arrivalBeforeDeparture
  | departureInPast
  | seatNotAvailable
deriving DecidableEq

def excOk {α : Type} : Except Err α → Bool
  | .ok _ => true
  | .error _ => false

/-- Truth of `hold_expires_at > now` for a nullable timestamp; SQL and the
Python conflict loop both treat a NULL expiry as not satisfying it. -/
def isActiveHold (hold : Option Int) (now : Int) : Bool :=
  match hold with
  | some t => decide (now < t)
  | none => false

/-- The activity predicate of section 3 of the spec, as it appears in
`Booking.clean` (both the conflict loop and the overbooking count):
not cancelled, and confirmed or an unexpired pending hold. -/
def Booking.activeAt (b : Booking) (now : Int) : Bool :=
  !b.is_cancelled &&
    (b.is_confirmed ||
      (decide (b.payment_status = PaymentStatus.pending) &&
        isActiveHold b.hold_expires_at now))

/-- The active-booking count of a trip used by the overbooking check of
`Booking.clean`. -/
def activeCount (s : Store) (tripPk : Nat) (now : Int) : Nat :=
  (s.bookings.filter
    (fun p => decide (p.2.tripId = tripPk) && Booking.activeAt p.2 now)).length

/-- A row other than `selfPk` on the same (trip, seat) with
`is_cancelled = false`: the rows inspected by the duplicate-seat loop of
`Booking.clean` and by the partial unique constraint. -/
def notCancelledSame (b : Booking) (selfPk : Option Nat) (p : Nat × Booking) :
    Bool :=
  decide (selfPk ≠ some p.1) && decide (p.2.tripId = b.tripId) &&
    decide (p.2.seat_number = b.seat_number) && !p.2.is_cancelled

/-- `Booking.clean` (models.py lines 148-180): reject booking a cancelled
trip, a seat number above capacity, a duplicate active seat, or
overbooking past capacity, in that order. -/
def booking_clean (s : Store) (b : Booking) (selfPk : Option Nat) (now : Int) :
    Except Err Unit :=
  match s.findTrip b.tripId with
  | none => .error .notFound
  | some trip =>
    match s.findBus trip.busId with
    | none => .error .notFound
    | some bus =>
      if trip.status = TripStatus.cancelled ∧ b.is_cancelled = false then
        .error .tripCancelledClean
      else if bus.capacity < b.seat_number then
        .error .seatExceedsCapacity
      else if s.bookings.any (fun p => notCancelledSame b selfPk p &&
          (p.2.is_confirmed ||
            (decide (p.2.payment_status = PaymentStatus.pending) &&
              isActiveHold p.2.hold_expires_at now))) then
        .error .seatAlreadyBooked
      else if b.is_cancelled = false ∧ bus.capacity ≤ activeCount s b.tripId now then
        .error .tripFullyBooked
      else
        .ok ()

/-- The database-side partial unique constraint
`unique_active_seat_per_trip`: a non-cancelled row may not share
(trip, seat) with another non-cancelled row. -/
def constraintViolated (s : Store) (b : Booking) (selfPk : Option Nat) : Bool :=
  !b.is_cancelled && s.bookings.any (notCancelledSame b selfPk)

/-- A primary key strictly larger than every booking key in the table. -/
def freshPk (l : List (Nat × Booking)) : Nat :=
  (l.foldr (fun p m => max p.1 m) 0) + 1

/-- `Booking.save()` on a new row: `full_clean`, then the INSERT, which the
database checks against the partial unique constraint. -/
def booking_insert (s : Store) (b : Booking) (now : Int) :
    Except Err (Store × Nat) :=
  match booking_clean s b none now with
  | .error e => .error e
  | .ok () =>
    if constraintViolated s b none then .error .uniqueConstraint
    else
      .ok ({ s with bookings := s.bookings ++ [(freshPk s.bookings, b)] },
        freshPk s.bookings)

def updBookings (s : Store) (pk : Nat) (b : Booking) : Store :=
  { s with bookings :=
      s.bookings.map (fun p => if p.1 = pk then (pk, b) else p) }

/-- `Booking.save()` on an existing row: `full_clean` (with the row itself
excluded from the duplicate scan), then the UPDATE, constraint-checked. -/
def booking_update (s : Store) (pk : Nat) (b : Booking) (now : Int) :
    Except Err Store :=
  match booking_clean s b (some pk) now with
  | .error e => .error e
  | .ok () =>
    if constraintViolated s b (some pk) then .error .uniqueConstraint
    else .ok (updBookings s pk b)

/-- `Trip.clean` (models.py lines 76-80): arrival after departure, and
departure not in the past. -/
def trip_clean (t : Trip) (now : Int) : Except Err Unit :=
  if t.arrival_time ≤ t.departure_time then .error .arrivalBeforeDeparture
  else if t.departure_time < now then .error .departureInPast
  else .ok ()

def updTrips (s : Store) (pk : Nat) (t : Trip) : Store :=
  { s with trips := s.trips.map (fun p => if p.1 = pk then (pk, t) else p) }

/-- `Trip.save()` on an existing row: `full_clean` then the UPDATE. -/
def trip_update (s : Store) (pk : Nat) (t : Trip) (now : Int) :
    Except Err Store :=
  match trip_clean t now with
  | .error e => .error e
  | .ok () => .ok (updTrips s pk t)

/-- `Trip.booked_seats` (models.py lines 86-97): seats of rows that are not
cancelled, whose payment status is not refunded or failed, and that are
confirmed or an unexpired pending hold. -/
def booked_seats (s : Store) (tripPk : Nat) (now : Int) : List Nat :=
  (s.bookings.filter (fun p =>
      decide (p.2.tripId = tripPk) && !p.2.is_cancelled &&
      !(decide (p.2.payment_status = PaymentStatus.refunded) ||
        decide (p.2.payment_status = PaymentStatus.failed)) &&
      (p.2.is_confirmed ||
        (decide (p.2.payment_status = PaymentStatus.pending) &&
          isActiveHold p.2.hold_expires_at now)))).map
    (fun p => p.2.seat_number)

/-- `Trip.available_seats` (models.py lines 99-107): seats `1..capacity`
that `booked_seats` does not list; `none` when the trip or its bus is
missing from the store. -/
def available_seats (s : Store) (tripPk : Nat) (now : Int) :
    Option (List Nat) :=
  match s.findTrip tripPk with
  | none => none
  | some trip =>
    match s.findBus trip.busId with
    | none => none
    | some bus =>
      some ((List.range' 1 bus.capacity).filter
        (fun seat => !(booked_seats s tripPk now).contains seat))

/-- The row `create_booking` of services.py builds: confirmed, paid, not
cancelled, and with no hold expiry (the model default for the field). -/
def serviceRow (userId tripPk seat : Nat) : Booking :=
  { userId := userId, tripId := tripPk, seat_number := seat,
    is_confirmed := true, is_cancelled := false,
    payment_status := PaymentStatus.paid, hold_expires_at := none }

/-- `create_booking` (services.py lines 11-38): trip prechecks, then an
explicit `full_clean`, then `save`. The row created carries
`is_confirmed = True`, `payment_status = "paid"`, `is_cancelled = False`
and no hold expiry. -/
def create_booking (s : Store) (userId tripPk seat : Nat) (now : Int) :
    Except Err (Store × Nat) :=
  match s.findTrip tripPk with
  | none => .error .notFound
  | some trip =>
    if trip.is_active = false then .error .tripNotActive
    else if trip.status = TripStatus.cancelled then .error .tripCancelledService
    else if trip.departure_time ≤ now then .error .tripDepartedService
    else
      match booking_clean s (serviceRow userId tripPk seat) none now with
      | .error e => .error e
      | .ok () => booking_insert s (serviceRow userId tripPk seat) now

/-- `cancel_booking` (services.py lines 42-73): ownership, not already
cancelled, trip not completed, 24-hour cutoff, then mark the row
cancelled, unconfirmed and failed and save it. -/
def cancel_booking (s : Store) (bookingPk userId : Nat) (now : Int) :
    Except Err Store :=
  match s.findBooking bookingPk with
  | none => .error .notFound
  | some b =>
    if b.userId ≠ userId then .error .notOwner
    else if b.is_cancelled then .error .alreadyCancelled
    else
      match s.findTrip b.tripId with
      | none => .error .notFound
      | some trip =>
        if trip.status = TripStatus.completed then .error .tripCompletedErr
        else if trip.departure_time - now < 24 * 3600 then .error .tooLateToCancel
        else
          booking_update s bookingPk
            { b with is_cancelled := true, is_confirmed := false,
                     payment_status := PaymentStatus.failed } now

/-- `complete_trip` (services.py lines 80-92): only a scheduled trip may be
completed; the save re-runs `Trip.full_clean`. -/
def complete_trip (s : Store) (tripPk : Nat) (now : Int) : Except Err Store :=
  match s.findTrip tripPk with
  | none => .error .notFound
  | some t =>
    if t.status ≠ TripStatus.scheduled then .error .onlyScheduledCompletable
    else
      trip_update s tripPk
        { t with status := TripStatus.completed, is_active := false } now

/-- The bulk `trip.bookings.update(...)` of `cancel_trip`: every booking of
the trip becomes cancelled, unconfirmed and failed, bypassing
`Booking.clean`, as a queryset UPDATE does. -/
def cancelCascade (s : Store) (tripPk : Nat) : Store :=
  { s with bookings := s.bookings.map (fun p =>
      if p.2.tripId = tripPk then
        (p.1, { p.2 with is_cancelled := true, is_confirmed := false,
                         payment_status := PaymentStatus.failed })
      else p) }

/-- `cancel_trip` (services.py lines 95-114): reject an already-cancelled
trip, save the trip as cancelled and inactive (re-running
`Trip.full_clean`), then cascade to all its bookings. -/
def cancel_trip (s : Store) (tripPk : Nat) (now : Int) : Except Err Store :=
  match s.findTrip tripPk with
  | none => .error .notFound
  | some t =>
    if t.status = TripStatus.cancelled then .error .tripAlreadyCancelled
    else
      match trip_update s tripPk
          { t with status := TripStatus.cancelled, is_active := false } now with
      | .error e => .error e
      | .ok s2 => .ok (cancelCascade s2 tripPk)

/-- `HOLD_TIME_MINUTES` of frontend/views.py, a fixed module constant. -/
def HOLD_TIME_MINUTES : Int := 5

/-- The expired-hold purge of `booking_page` (frontend/views.py lines
109-115): delete pending, unconfirmed rows of the trip whose hold expiry
lies strictly in the past. -/
def sweepExpired (s : Store) (tripPk : Nat) (now : Int) : Store :=
  { s with bookings := s.bookings.filter (fun p =>
      !(decide (p.2.tripId = tripPk) && !p.2.is_confirmed &&
        decide (p.2.payment_status = PaymentStatus.pending) &&
        (match p.2.hold_expires_at with
         | some t => decide (t < now)
         | none => false))) }

/-- The POST branch of `booking_page` (frontend/views.py lines 97-149):
refuse departed trips, purge expired holds, check the chosen seat against
`available_seats`, then create a pending hold expiring `HOLD_TIME_MINUTES`
from now. -/
def holdRow (userId tripPk seat : Nat) (now : Int) : Booking :=
  { userId := userId, tripId := tripPk, seat_number := seat,
    is_confirmed := false, is_cancelled := false,
    payment_status := PaymentStatus.pending,
    hold_expires_at := some (now + HOLD_TIME_MINUTES * 60) }

def booking_page_reserve (s : Store) (userId tripPk seat : Nat) (now : Int) :
    Except Err (Store × Nat) :=
  match s.findTrip tripPk with
  | none => .error .notFound
  | some trip =>
    if trip.departure_time ≤ now then .error .tripDepartedService
    else
      match available_seats (sweepExpired s tripPk now) tripPk now with
      | none => .error .notFound
      | some avail =>
        if (avail.contains seat) = false then .error .seatNotAvailable
        else
          booking_insert (sweepExpired s tripPk now)
            (holdRow userId tripPk seat now) now

/-- The row state `payment_page` writes on success (frontend/views.py
lines 175-177): paid, confirmed, hold expiry cleared. -/
def confirmedRow (b : Booking) : Booking :=
  { b with payment_status := PaymentStatus.paid, is_confirmed := true,
           hold_expires_at := none }

/-- The POST branch of `payment_page` (frontend/views.py lines 160-188):
the booking must exist and belong to the caller (otherwise 404) and not be
cancelled; then set paid, confirmed, clear the hold expiry, and save. -/
def payment_page_pay (s : Store) (bookingPk userId : Nat) (now : Int) :
    Except Err Store :=
  match s.findBooking bookingPk with
  | none => .error .notFound
  | some b =>
    if b.userId ≠ userId then .error .notFound
    else if b.is_cancelled then .error .alreadyCancelled
    else booking_update s bookingPk (confirmedRow b) now

/-- `FakePaymentAPIView.post` (bus_app/views.py lines 323-337): the booking
must exist and belong to the caller (otherwise 404); then set paid and
confirmed — the hold expiry is left as it was — and save. -/
def fake_payment (s : Store) (bookingPk userId : Nat) (now : Int) :
    Except Err Store :=
  match s.findBooking bookingPk with
  | none => .error .notFound
  | some b =>
    if b.userId ≠ userId then .error .notFound
    else
      booking_update s bookingPk
        { b with payment_status := PaymentStatus.paid, is_confirmed := true }
        now

/-- `cancel_booking_page` (frontend/views.py lines 220-252): the booking
must exist and belong to the caller (otherwise 404) and not be already
cancelled; then mark it cancelled and unconfirmed, refund only if it was
paid (any other payment status is left as it was), and save. -/
def cancel_booking_page (s : Store) (bookingPk userId : Nat) (now : Int) :
    Except Err Store :=
  match s.findBooking bookingPk with
  | none => .error .notFound
  | some b =>
    if b.userId ≠ userId then .error .notFound
    else if b.is_cancelled then .error .alreadyCancelled
    else
      booking_update s bookingPk
        { b with is_cancelled := true, is_confirmed := false,
                 payment_status :=
                   if b.payment_status = PaymentStatus.paid then
                     PaymentStatus.refunded
                   else b.payment_status } now

/-! ### Store invariants

The database-level partial unique constraint keeps at most one
non-cancelled row per (trip, seat); that single fact, threaded through
every mutating operation, yields the section-3 core invariant. -/

/-- No two rows of the booking table share (trip, seat) while both are
not cancelled — the property the partial unique constraint enforces. -/
def NoTwoNotCancelled (s : Store) : Prop :=
  s.bookings.Pairwise (fun p q =>
    ¬(p.2.tripId = q.2.tripId ∧ p.2.seat_number = q.2.seat_number ∧
      p.2.is_cancelled = false ∧ q.2.is_cancelled = false))

/-- Booking primary keys are pairwise distinct. -/
def PksNodup (s : Store) : Prop := (s.bookings.map Prod.fst).Nodup

def Inv (s : Store) : Prop := PksNodup s ∧ NoTwoNotCancelled s

/-- At any instant, at most one booking per (trip, seat) is active in the
sense of the section-3 predicate. -/
def UniqueActivePerSeat (s : Store) : Prop :=
  ∀ now : Int, s.bookings.Pairwise (fun p q =>
    ¬(p.2.tripId = q.2.tripId ∧ p.2.seat_number = q.2.seat_number ∧
      Booking.activeAt p.2 now = true ∧ Booking.activeAt q.2 now = true))

theorem activeAt_not_cancelled {b : Booking} {now : Int}
    (h : Booking.activeAt b now = true) : b.is_cancelled = false := by
  simp only [Booking.activeAt, Bool.and_eq_true, Bool.not_eq_true'] at h
  exact h.1

theorem noTwo_uniqueActive {s : Store} (h : NoTwoNotCancelled s) :
    UniqueActivePerSeat s := by
  intro now
  refine h.imp ?_
  intro p q hpq hconf
  obtain ⟨ht, hs, ha1, ha2⟩ := hconf
  exact hpq ⟨ht, hs, activeAt_not_cancelled ha1, activeAt_not_cancelled ha2⟩

theorem le_foldr_max (l : List (Nat × Booking)) (p : Nat × Booking)
    (hp : p ∈ l) : p.1 ≤ l.foldr (fun q m => max q.1 m) 0 := by
  induction l with
  | nil => cases hp
  | cons a t ih =>
    rcases List.mem_cons.mp hp with h | h
    · subst h; exact Nat.le_max_left _ _
    · exact le_trans (ih h) (Nat.le_max_right _ _)

theorem freshPk_not_mem (l : List (Nat × Booking)) :
    freshPk l ∉ l.map Prod.fst := by
  intro h
  rcases List.mem_map.mp h with ⟨p, hp, hfst⟩
  have h1 := le_foldr_max l p hp
  rw [hfst] at h1
  simp only [freshPk] at h1
  omega

theorem inv_insert {s : Store} {b : Booking}
    (hc : constraintViolated s b none = false) (hinv : Inv s) :
    Inv { s with bookings := s.bookings ++ [(freshPk s.bookings, b)] } := by
  obtain ⟨h1, h2⟩ := hinv
  constructor
  · simp only [PksNodup, List.map_append] at *
    refine List.Nodup.append h1 (by simp) ?_
    intro a ha hb
    simp only [List.map_cons, List.map_nil, List.mem_singleton] at hb
    subst hb
    exact freshPk_not_mem _ ha
  · simp only [NoTwoNotCancelled, List.pairwise_append] at *
    refine ⟨h2, by simp, ?_⟩
    intro p hp q hq
    simp only [List.mem_singleton] at hq
    subst hq
    rintro ⟨ht, hs, hpc, hbc⟩
    have htb : p.2.tripId = b.tripId := ht
    have hsb : p.2.seat_number = b.seat_number := hs
    have hbcb : b.is_cancelled = false := hbc
    simp only [constraintViolated, hbcb, Bool.not_false, Bool.true_and,
      List.any_eq_false] at hc
    have hcp := hc p hp
    simp [notCancelledSame, htb, hsb, hpc] at hcp

theorem inv_update {s : Store} {pk : Nat} {b : Booking}
    (hc : constraintViolated s b (some pk) = false) (hinv : Inv s) :
    Inv (updBookings s pk b) := by
  obtain ⟨h1, h2⟩ := hinv
  have hfstpres :
      (Prod.fst ∘ fun p : Nat × Booking => if p.1 = pk then (pk, b) else p) =
        Prod.fst := by
    funext p; by_cases h : p.1 = pk <;> simp [h]
  constructor
  · simp only [PksNodup, updBookings, List.map_map, hfstpres]
    exact h1
  · simp only [NoTwoNotCancelled, updBookings]
    rw [List.pairwise_map]
    have hfst : s.bookings.Pairwise
        (fun p q : Nat × Booking => p.1 ≠ q.1) := by
      have h1p : (s.bookings.map Prod.fst).Pairwise (· ≠ ·) := h1
      exact List.pairwise_map.mp h1p
    have hcomb := hfst.and h2
    refine List.Pairwise.imp_of_mem ?_ hcomb
    intro p q hpmem hqmem hpq
    obtain ⟨hne, hnc⟩ := hpq
    by_cases hp : p.1 = pk <;> by_cases hq : q.1 = pk
    · exact absurd (hp.trans hq.symm) hne
    · rw [if_pos hp, if_neg hq]
      rintro ⟨ht, hs, hc1, hc2⟩
      have htb : b.tripId = q.2.tripId := ht
      have hsb : b.seat_number = q.2.seat_number := hs
      have hbcb : b.is_cancelled = false := hc1
      simp only [constraintViolated, hbcb, Bool.not_false, Bool.true_and,
        List.any_eq_false] at hc
      have hcq := hc q hqmem
      simp [notCancelledSame, htb.symm, hsb.symm, hc2, Ne.symm hq] at hcq
    · rw [if_neg hp, if_pos hq]
      rintro ⟨ht, hs, hc1, hc2⟩
      have htb : p.2.tripId = b.tripId := ht
      have hsb : p.2.seat_number = b.seat_number := hs
      have hbcb : b.is_cancelled = false := hc2
      simp only [constraintViolated, hbcb, Bool.not_false, Bool.true_and,
        List.any_eq_false] at hc
      have hcp := hc p hpmem
      simp [notCancelledSame, htb, hsb, hc1, Ne.symm hp] at hcp
    · rw [if_neg hp, if_neg hq]
      exact hnc

theorem inv_cascade {s : Store} (tp : Nat) (hinv : Inv s) :
    Inv (cancelCascade s tp) := by
  obtain ⟨h1, h2⟩ := hinv
  have hfstpres : (Prod.fst ∘ fun p : Nat × Booking =>
      if p.2.tripId = tp then
        (p.1, { p.2 with is_cancelled := true, is_confirmed := false,
                         payment_status := PaymentStatus.failed })
      else p) = Prod.fst := by
    funext p; by_cases h : p.2.tripId = tp <;> simp [h]
  constructor
  · simp only [PksNodup, cancelCascade, List.map_map, hfstpres]
    exact h1
  · simp only [NoTwoNotCancelled, cancelCascade]
    rw [List.pairwise_map]
    refine h2.imp ?_
    intro p q hpq
    rintro ⟨ht, hs, hc1, hc2⟩
    by_cases hp : p.2.tripId = tp
    · simp [hp] at hc1
    · by_cases hq : q.2.tripId = tp
      · simp [hq] at hc2
      · simp only [if_neg hp] at ht hs hc1
        simp only [if_neg hq] at ht hs hc2
        exact hpq ⟨ht, hs, hc1, hc2⟩

theorem inv_sweep {s : Store} (tp : Nat) (now : Int) (hinv : Inv s) :
    Inv (sweepExpired s tp now) := by
  obtain ⟨h1, h2⟩ := hinv
  constructor
  · exact List.Nodup.sublist ((List.filter_sublist _).map Prod.fst) h1
  · exact List.Pairwise.sublist (List.filter_sublist _) h2

theorem booking_insert_inv {s : Store} {b : Booking} {now : Int} {s2 : Store}
    {pk : Nat} (h : booking_insert s b now = .ok (s2, pk)) (hinv : Inv s) :
    Inv s2 := by
  unfold booking_insert at h
  split at h
  · exact Except.noConfusion h
  · split at h
    · exact Except.noConfusion h
    · rename_i hcv
      simp only [Except.ok.injEq, Prod.mk.injEq] at h
      obtain ⟨h1, _⟩ := h
      subst h1
      refine inv_insert ?_ hinv
      simpa using hcv

theorem booking_update_inv {s : Store} {pk : Nat} {b : Booking} {now : Int}
    {s2 : Store} (h : booking_update s pk b now = .ok s2) (hinv : Inv s) :
    Inv s2 := by
  unfold booking_update at h
  split at h
  · exact Except.noConfusion h
  · split at h
    · exact Except.noConfusion h
    · rename_i hcv
      simp only [Except.ok.injEq] at h
      subst h
      refine inv_update ?_ hinv
      simpa using hcv

theorem inv_bookings_eq {s s2 : Store} (h : s2.bookings = s.bookings)
    (hinv : Inv s) : Inv s2 := by
  obtain ⟨h1, h2⟩ := hinv
  constructor
  · unfold PksNodup
    rw [h]
    exact h1
  · unfold NoTwoNotCancelled
    rw [h]
    exact h2

theorem trip_update_inv {s : Store} {pk : Nat} {t : Trip} {now : Int}
    {s2 : Store} (h : trip_update s pk t now = .ok s2) (hinv : Inv s) :
    Inv s2 := by
  unfold trip_update at h
  split at h
  · exact Except.noConfusion h
  · simp only [Except.ok.injEq] at h
    subst h
    exact inv_bookings_eq rfl hinv

theorem create_booking_inv {s : Store} {u tp seat : Nat} {now : Int}
    {s2 : Store} {pk : Nat}
    (h : create_booking s u tp seat now = .ok (s2, pk)) (hinv : Inv s) :
    Inv s2 := by
  unfold create_booking at h
  split at h
  · exact Except.noConfusion h
  · split at h
    · exact Except.noConfusion h
    · split at h
      · exact Except.noConfusion h
      · split at h
        · exact Except.noConfusion h
        · split at h
          · exact Except.noConfusion h
          · exact booking_insert_inv h hinv

theorem reserve_inv {s : Store} {u tp seat : Nat} {now : Int}
    {s2 : Store} {pk : Nat}
    (h : booking_page_reserve s u tp seat now = .ok (s2, pk)) (hinv : Inv s) :
    Inv s2 := by
  unfold booking_page_reserve at h
  split at h
  · exact Except.noConfusion h
  · split at h
    · exact Except.noConfusion h
    · split at h
      · exact Except.noConfusion h
      · split at h
        · exact Except.noConfusion h
        · exact booking_insert_inv h (inv_sweep _ _ hinv)

theorem pay_inv {s : Store} {bk u : Nat} {now : Int} {s2 : Store}
    (h : payment_page_pay s bk u now = .ok s2) (hinv : Inv s) : Inv s2 := by
  unfold payment_page_pay at h
  split at h
  · exact Except.noConfusion h
  · split at h
    · exact Except.noConfusion h
    · split at h
      · exact Except.noConfusion h
      · exact booking_update_inv h hinv

theorem fake_pay_inv {s : Store} {bk u : Nat} {now : Int} {s2 : Store}
    (h : fake_payment s bk u now = .ok s2) (hinv : Inv s) : Inv s2 := by
  unfold fake_payment at h
  split at h
  · exact Except.noConfusion h
  · split at h
    · exact Except.noConfusion h
    · exact booking_update_inv h hinv

theorem cancel_booking_inv {s : Store} {bk u : Nat} {now : Int} {s2 : Store}
    (h : cancel_booking s bk u now = .ok s2) (hinv : Inv s) : Inv s2 := by
  unfold cancel_booking at h
  split at h
  · exact Except.noConfusion h
  · split at h
    · exact Except.noConfusion h
    · split at h
      · exact Except.noConfusion h
      · split at h
        · exact Except.noConfusion h
        · split at h
          · exact Except.noConfusion h
          · split at h
            · exact Except.noConfusion h
            · exact booking_update_inv h hinv

theorem cancel_page_inv {s : Store} {bk u : Nat} {now : Int} {s2 : Store}
    (h : cancel_booking_page s bk u now = .ok s2) (hinv : Inv s) : Inv s2 := by
  unfold cancel_booking_page at h
  split at h
  · exact Except.noConfusion h
  · split at h
    · exact Except.noConfusion h
    · split at h
      · exact Except.noConfusion h
      · exact booking_update_inv h hinv

theorem complete_trip_inv {s : Store} {tp : Nat} {now : Int} {s2 : Store}
    (h : complete_trip s tp now = .ok s2) (hinv : Inv s) : Inv s2 := by
  unfold complete_trip at h
  split at h
  · exact Except.noConfusion h
  · split at h
    · exact Except.noConfusion h
    · exact trip_update_inv h hinv

theorem cancel_trip_inv {s : Store} {tp : Nat} {now : Int} {s2 : Store}
    (h : cancel_trip s tp now = .ok s2) (hinv : Inv s) : Inv s2 := by
  unfold cancel_trip at h
  split at h
  · exact Except.noConfusion h
  · split at h
    · exact Except.noConfusion h
    · split at h
      · exact Except.noConfusion h
      · rename_i s3 heq
        simp only [Except.ok.injEq] at h
        subst h
        exact inv_cascade _ (trip_update_inv heq hinv)

/-- The stores reachable from an empty database: administrative edits of
the bus and trip tables (which never touch bookings), plus the booking
mutations of the service layer and of the request handlers. -/
inductive Reachable : Store → Prop
  | empty : Reachable Store.empty
  | setBuses (s : Store) (l : List (Nat × Bus)) :
      Reachable s → Reachable { s with buses := l }
  | setTrips (s : Store) (l : List (Nat × Trip)) :
      Reachable s → Reachable { s with trips := l }
  | createBooking (s : Store) (u tp seat : Nat) (now : Int) (s2 : Store)
      (pk : Nat) : create_booking s u tp seat now = .ok (s2, pk) →
      Reachable s → Reachable s2
  | reserve (s : Store) (u tp seat : Nat) (now : Int) (s2 : Store) (pk : Nat) :
      booking_page_reserve s u tp seat now = .ok (s2, pk) →
      Reachable s → Reachable s2
  | pay (s : Store) (bk u : Nat) (now : Int) (s2 : Store) :
      payment_page_pay s bk u now = .ok s2 → Reachable s → Reachable s2
  | fakePay (s : Store) (bk u : Nat) (now : Int) (s2 : Store) :
      fake_payment s bk u now = .ok s2 → Reachable s → Reachable s2
  | cancelService (s : Store) (bk u : Nat) (now : Int) (s2 : Store) :
      cancel_booking s bk u now = .ok s2 → Reachable s → Reachable s2
  | cancelPage (s : Store) (bk u : Nat) (now : Int) (s2 : Store) :
      cancel_booking_page s bk u now = .ok s2 → Reachable s → Reachable s2
  | completeTrip (s : Store) (tp : Nat) (now : Int) (s2 : Store) :
      complete_trip s tp now = .ok s2 → Reachable s → Reachable s2
  | cancelTrip (s : Store) (tp : Nat) (now : Int) (s2 : Store) :
      cancel_trip s tp now = .ok s2 → Reachable s → Reachable s2
  | sweep (s : Store) (tp : Nat) (now : Int) :
      Reachable s → Reachable (sweepExpired s tp now)

theorem reachable_inv {s : Store} (h : Reachable s) : Inv s := by
  induction h with
  | empty =>
    exact ⟨by simp [PksNodup, Store.empty], by simp [NoTwoNotCancelled, Store.empty]⟩
  | setBuses s l _ ih => exact ih
  | setTrips s l _ ih => exact ih
  | createBooking s u tp seat now s2 pk h _ ih => exact create_booking_inv h ih
  | reserve s u tp seat now s2 pk h _ ih => exact reserve_inv h ih
  | pay s bk u now s2 h _ ih => exact pay_inv h ih
  | fakePay s bk u now s2 h _ ih => exact fake_pay_inv h ih
  | cancelService s bk u now s2 h _ ih => exact cancel_booking_inv h ih
  | cancelPage s bk u now s2 h _ ih => exact cancel_page_inv h ih
  | completeTrip s tp now s2 h _ ih => exact complete_trip_inv h ih
  | cancelTrip s tp now s2 h _ ih => exact cancel_trip_inv h ih
  | sweep s tp now _ ih => exact inv_sweep _ _ ih

/-! ### Row-lookup helpers -/

theorem find?_append_fresh (l : List (Nat × Booking)) (pk : Nat) (b : Booking)
    (hfresh : pk ∉ l.map Prod.fst) :
    (l ++ [(pk, b)]).find? (fun p => decide (p.1 = pk)) = some (pk, b) := by
  induction l with
  | nil => simp [List.find?]
  | cons a t ih =>
    simp only [List.map_cons, List.mem_cons, not_or] at hfresh
    obtain ⟨h1, h2⟩ := hfresh
    rw [List.cons_append]
    rw [List.find?_cons_of_neg _ (by simpa using Ne.symm h1)]
    exact ih h2

/-- A successful insert makes the fresh key point at the inserted row. -/
theorem booking_insert_find {s : Store} {b : Booking} {now : Int} {s2 : Store}
    {pk : Nat} (h : booking_insert s b now = .ok (s2, pk)) :
    s2.findBooking pk = some b := by
  unfold booking_insert at h
  split at h
  · exact Except.noConfusion h
  · split at h
    · exact Except.noConfusion h
    · simp only [Except.ok.injEq, Prod.mk.injEq] at h
      obtain ⟨h1, h2⟩ := h
      subst h1
      subst h2
      unfold Store.findBooking
      rw [find?_append_fresh s.bookings (freshPk s.bookings) b
        (freshPk_not_mem _)]
      rfl

theorem find?_map_update (l : List (Nat × Booking)) (pk : Nat) (c : Booking)
    (h : (l.find? (fun p => decide (p.1 = pk))).isSome = true) :
    ((l.map (fun p => if p.1 = pk then (pk, c) else p)).find?
      (fun p => decide (p.1 = pk))) = some (pk, c) := by
  induction l with
  | nil => simp [List.find?] at h
  | cons a t ih =>
    by_cases ha : a.1 = pk
    · rw [List.map_cons, if_pos ha]
      rw [List.find?_cons_of_pos _ (by simp)]
    · rw [List.map_cons, if_neg ha]
      rw [List.find?_cons_of_neg _ (by simpa using ha)]
      refine ih ?_
      rw [List.find?_cons_of_neg _ (by simpa using ha)] at h
      exact h

/-- A successful update makes the key point at the new row value. -/
theorem booking_update_find {s : Store} {pk : Nat} {c : Booking} {now : Int}
    {s2 : Store} (h : booking_update s pk c now = .ok s2)
    (hpresent : (s.findBooking pk).isSome = true) :
    s2.findBooking pk = some c := by
  unfold booking_update at h
  split at h
  · exact Except.noConfusion h
  · split at h
    · exact Except.noConfusion h
    · simp only [Except.ok.injEq] at h
      subst h
      unfold Store.findBooking updBookings
      rw [find?_map_update s.bookings pk c ?_]
      · rfl
      · unfold Store.findBooking at hpresent
        simpa using hpresent

/-- Sufficient semantic conditions under which `Booking.clean` accepts. -/
theorem booking_clean_ok (s : Store) (b2 : Booking) (pk : Nat) (now : Int)
    (trip : Trip) (bus : Bus)
    (ht : s.findTrip b2.tripId = some trip)
    (hbus : s.findBus trip.busId = some bus)
    (hstat : ¬(trip.status = TripStatus.cancelled ∧ b2.is_cancelled = false))
    (hseat : b2.seat_number ≤ bus.capacity)
    (hany : (s.bookings.any (fun p => notCancelledSame b2 (some pk) p &&
        (p.2.is_confirmed ||
          (decide (p.2.payment_status = PaymentStatus.pending) &&
            isActiveHold p.2.hold_expires_at now)))) = false)
    (hfull : ¬(b2.is_cancelled = false ∧
      bus.capacity ≤ activeCount s b2.tripId now)) :
    booking_clean s b2 (some pk) now = .ok () := by
  unfold booking_clean
  rw [ht]
  show (match s.findBus trip.busId with
    | none => Except.error Err.notFound
    | some bus => _) = _
  rw [hbus]
  show (if trip.status = TripStatus.cancelled ∧ b2.is_cancelled = false
    then _ else _) = _
  rw [if_neg hstat, if_neg (not_lt.mpr hseat), hany]
  rw [if_neg (by simp), if_neg hfull]

/-- A clean pass and an unviolated constraint make the UPDATE go through. -/
theorem booking_update_ok (s : Store) (pk : Nat) (b2 : Booking) (now : Int)
    (hclean : booking_clean s b2 (some pk) now = .ok ())
    (hcv : constraintViolated s b2 (some pk) = false) :
    booking_update s pk b2 now = .ok (updBookings s pk b2) := by
  unfold booking_update
  rw [hclean]
  show (if constraintViolated s b2 (some pk) = true then _ else _) = _
  rw [hcv]
  simp

/-! ### Claims -/

/-- C1: in every store reachable through the mutating operations (hold and
service-layer booking creation, both confirmation paths, both
holder-cancellation paths, trip cancellation, trip completion, plus
administrative bus or trip edits and the expired-hold purge), at most one
booking per (trip, seat) is active at any instant, where active means not
cancelled and either confirmed or an unexpired pending hold; hence each
of those operations preserves the predicate. -/
theorem reachable_at_most_one_active (s : Store) (h : Reachable s) :
    UniqueActivePerSeat s :=
  noTwo_uniqueActive (reachable_inv h).2

def witBus : Bus := ⟨2, true⟩

def witTrip : Trip := ⟨1, 200000, 300000, true, TripStatus.scheduled⟩

theorem reachable_at_most_one_active_witness :
    UniqueActivePerSeat
      { buses := [(1, witBus)], trips := [(1, witTrip)],
        bookings := [(1, serviceRow 7 1 1)] } := by
  refine reachable_at_most_one_active _ ?_
  refine Reachable.createBooking
    { buses := [(1, witBus)], trips := [(1, witTrip)], bookings := [] }
    7 1 1 0 _ 1 (by rfl) ?_
  refine Reachable.setTrips { Store.empty with buses := [(1, witBus)] }
    [(1, witTrip)] ?_
  exact Reachable.setBuses Store.empty [(1, witBus)] Reachable.empty

/-- C10: as long as any booking row for a (trip, seat) pair has
`is_cancelled = false` — an expired pending hold included — the
service-layer `create_booking` cannot insert a new booking for that pair:
the partial unique constraint (or an earlier check) always makes the call
fail. -/
theorem stale_hold_blocks_insert (s : Store) (u tp seat : Nat) (now : Int)
    (pk0 : Nat) (b0 : Booking) (hmem : (pk0, b0) ∈ s.bookings)
    (htrip : b0.tripId = tp) (hseat : b0.seat_number = seat)
    (hnc : b0.is_cancelled = false) :
    excOk (create_booking s u tp seat now) = false := by
  unfold create_booking
  split
  · rfl
  · split
    · rfl
    · split
      · rfl
      · split
        · rfl
        · split
          · rfl
          · rename_i heq
            have hcv : constraintViolated s (serviceRow u tp seat) none = true := by
              unfold constraintViolated
              simp only [serviceRow, Bool.not_false, Bool.true_and]
              refine List.any_eq_true.mpr ⟨(pk0, b0), hmem, ?_⟩
              simp [notCancelledSame, serviceRow, htrip, hseat, hnc]
            simp only [booking_insert, heq]
            rw [if_pos hcv]
            rfl

def staleHold : Booking := ⟨7, 1, 1, false, false, PaymentStatus.pending, some 10⟩

def staleStore : Store :=
  { buses := [(1, witBus)], trips := [(1, witTrip)],
    bookings := [(1, staleHold)] }

theorem stale_hold_blocks_insert_witness :
    available_seats staleStore 1 50 = some [1, 2] ∧
      excOk (create_booking staleStore 9 1 1 50) = false := by
  constructor
  · rfl
  · exact stale_hold_blocks_insert staleStore 9 1 1 50 1 staleHold
      (by simp [staleStore]) rfl rfl rfl

/-- C2 counterexample: a successful run of the service-layer
`create_booking` (one of the two hold-creation code paths) inserts a row
with `payment_status = paid`, `is_confirmed = true` and no
`hold_expires_at` — not the pending hold the claim promises for every
successful creation. -/
theorem create_booking_inserts_paid_row :
    create_booking
        { buses := [(1, witBus)], trips := [(1, witTrip)], bookings := [] }
        7 1 1 0 =
      .ok ({ buses := [(1, witBus)], trips := [(1, witTrip)],
             bookings := [(1, serviceRow 7 1 1)] }, 1) ∧
    (serviceRow 7 1 1).payment_status = PaymentStatus.paid ∧
    (serviceRow 7 1 1).is_confirmed = true ∧
    (serviceRow 7 1 1).hold_expires_at = none :=
  ⟨by rfl, rfl, rfl, rfl⟩

/-- C2 amended: the frontend `booking_page` path does insert exactly the
claimed pending hold, unconfirmed and expiring at the action time plus the
fixed five-minute `HOLD_TIME_MINUTES` window, which the caller cannot
configure; but the service-layer `create_booking` path instead inserts an
already-confirmed paid row with no hold expiry. -/
theorem hold_creation_row_fields (s : Store) (u tp seat : Nat) (now : Int)
    (s2 : Store) (pk : Nat) :
    (booking_page_reserve s u tp seat now = .ok (s2, pk) →
      s2.findBooking pk = some (holdRow u tp seat now)) ∧
    (create_booking s u tp seat now = .ok (s2, pk) →
      s2.findBooking pk = some (serviceRow u tp seat)) ∧
    holdRow u tp seat now =
      ⟨u, tp, seat, false, false, PaymentStatus.pending, some (now + 300)⟩ ∧
    serviceRow u tp seat =
      ⟨u, tp, seat, true, false, PaymentStatus.paid, none⟩ := by
  refine ⟨?_, ?_, ?_, rfl⟩
  · intro h
    unfold booking_page_reserve at h
    split at h
    · exact Except.noConfusion h
    · split at h
      · exact Except.noConfusion h
      · split at h
        · exact Except.noConfusion h
        · split at h
          · exact Except.noConfusion h
          · exact booking_insert_find h
  · intro h
    unfold create_booking at h
    split at h
    · exact Except.noConfusion h
    · split at h
      · exact Except.noConfusion h
      · split at h
        · exact Except.noConfusion h
        · split at h
          · exact Except.noConfusion h
          · split at h
            · exact Except.noConfusion h
            · exact booking_insert_find h
  · show holdRow u tp seat now = _
    unfold holdRow HOLD_TIME_MINUTES
    norm_num

theorem hold_creation_row_fields_witness :
    ({ buses := [(1, witBus)], trips := [(1, witTrip)],
       bookings := [(1, holdRow 7 1 2 0)] } : Store).findBooking 1 =
      some (holdRow 7 1 2 0) :=
  (hold_creation_row_fields
    { buses := [(1, witBus)], trips := [(1, witTrip)], bookings := [] }
    7 1 2 0 _ 1).1 (by rfl)

def paidBooking : Booking := ⟨7, 1, 1, true, false, PaymentStatus.paid, none⟩

def paidStore : Store :=
  { buses := [(1, witBus)], trips := [(1, witTrip)],
    bookings := [(1, paidBooking)] }

/-- C4 counterexample: the service-layer `cancel_booking`, run on a booking
whose payment status is `paid` and which passes every precondition, sets
`payment_status = failed`, not the `refunded` the claim requires. -/
theorem service_cancel_paid_sets_failed :
    cancel_booking paidStore 1 7 0 =
      .ok { buses := [(1, witBus)], trips := [(1, witTrip)],
            bookings :=
              [(1, ⟨7, 1, 1, false, true, PaymentStatus.failed, none⟩)] } ∧
    PaymentStatus.failed ≠ PaymentStatus.refunded :=
  ⟨by rfl, by decide⟩

/-- C4 amended: both holder-initiated cancellation paths set
`is_cancelled = true` and `is_confirmed = false`, but the service-layer
path always sets `payment_status = failed` (even for a paid booking), while
the frontend page path sets it to `refunded` when it was `paid` and
otherwise leaves the payment status unchanged (a pending hold stays
`pending`, it is not marked `failed`). -/
theorem cancel_effects (s : Store) (pk u : Nat) (now : Int) (b : Booking)
    (s2 : Store) (hb : s.findBooking pk = some b) :
    (cancel_booking s pk u now = .ok s2 →
      s2.findBooking pk =
        some { b with is_cancelled := true, is_confirmed := false,
                      payment_status := PaymentStatus.failed }) ∧
    (cancel_booking_page s pk u now = .ok s2 →
      s2.findBooking pk =
        some { b with is_cancelled := true, is_confirmed := false,
                      payment_status :=
                        if b.payment_status = PaymentStatus.paid then
                          PaymentStatus.refunded
                        else b.payment_status }) := by
  have hpresent : (s.findBooking pk).isSome = true := by rw [hb]; rfl
  constructor
  · intro h
    unfold cancel_booking at h
    split at h
    · exact Except.noConfusion h
    · rename_i b2 hb2
      rw [hb] at hb2
      injection hb2 with hb2
      subst hb2
      split at h
      · exact Except.noConfusion h
      · split at h
        · exact Except.noConfusion h
        · split at h
          · exact Except.noConfusion h
          · split at h
            · exact Except.noConfusion h
            · split at h
              · exact Except.noConfusion h
              · exact booking_update_find h hpresent
  · intro h
    unfold cancel_booking_page at h
    split at h
    · exact Except.noConfusion h
    · rename_i b2 hb2
      rw [hb] at hb2
      injection hb2 with hb2
      subst hb2
      split at h
      · exact Except.noConfusion h
      · split at h
        · exact Except.noConfusion h
        · exact booking_update_find h hpresent

theorem cancel_effects_witness :
    ({ buses := [(1, witBus)], trips := [(1, witTrip)],
       bookings :=
         [(1, (⟨7, 1, 1, false, true, PaymentStatus.refunded, none⟩ :
           Booking))] } : Store).findBooking 1 =
      some ⟨7, 1, 1, false, true, PaymentStatus.refunded, none⟩ :=
  (cancel_effects paidStore 1 7 0 paidBooking _ (by rfl)).2 (by rfl)

/-- C5: when a booking exists, belongs to the caller, is not cancelled and
its trip is not completed (and the store is otherwise well formed: the
trip and bus rows resolve, the seat is within capacity and no other
non-cancelled row occupies the seat), the holder cancellation fails with
the too-late error exactly when the departure is strictly less than 24
hours away, and succeeds whenever it is at least 24 hours away. -/
theorem cancel_cutoff_24h (s : Store) (pk u : Nat) (now : Int) (b : Booking)
    (trip : Trip) (bus : Bus)
    (hb : s.findBooking pk = some b) (hu : b.userId = u)
    (hnc : b.is_cancelled = false) (ht : s.findTrip b.tripId = some trip)
    (hbus : s.findBus trip.busId = some bus)
    (hcomp : ¬(trip.status = TripStatus.completed))
    (hseat : b.seat_number ≤ bus.capacity)
    (hconf : ∀ p ∈ s.bookings, p.1 ≠ pk →
      ¬(p.2.tripId = b.tripId ∧ p.2.seat_number = b.seat_number ∧
        p.2.is_cancelled = false)) :
    (trip.departure_time - now < 24 * 3600 →
      cancel_booking s pk u now = .error Err.tooLateToCancel) ∧
    (24 * 3600 ≤ trip.departure_time - now →
      excOk (cancel_booking s pk u now) = true) := by
  have hnu : ¬(b.userId ≠ u) := fun hh => hh hu
  have hncl : ¬(b.is_cancelled = true) := by rw [hnc]; simp
  have hred : cancel_booking s pk u now =
      (if trip.departure_time - now < 24 * 3600 then
        Except.error Err.tooLateToCancel
      else booking_update s pk
        { b with is_cancelled := true, is_confirmed := false,
                 payment_status := PaymentStatus.failed } now) := by
    unfold cancel_booking
    rw [hb]
    show (if b.userId ≠ u then _ else _) = _
    rw [if_neg hnu, if_neg hncl, ht]
    show (if trip.status = TripStatus.completed then _ else _) = _
    rw [if_neg hcomp]
  constructor
  · intro hlt
    rw [hred, if_pos hlt]
  · intro hge
    rw [hred, if_neg (not_lt.mpr hge)]
    have hany : (s.bookings.any (fun p =>
        notCancelledSame { b with is_cancelled := true, is_confirmed := false,
                                  payment_status := PaymentStatus.failed }
          (some pk) p &&
        (p.2.is_confirmed ||
          (decide (p.2.payment_status = PaymentStatus.pending) &&
            isActiveHold p.2.hold_expires_at now)))) = false := by
      rw [List.any_eq_false]
      intro p hp
      by_cases hppk : p.1 = pk
      · simp [notCancelledSame, hppk]
      · have h3 := hconf p hp hppk
        push_neg at h3
        intro hcontra
        simp only [notCancelledSame, Bool.and_eq_true, Bool.not_eq_true',
          decide_eq_true_eq, Bool.or_eq_true] at hcontra
        obtain ⟨⟨⟨⟨_, htp⟩, hsp⟩, hcp⟩, _⟩ := hcontra
        exact (h3 htp hsp) hcp
    have hclean := booking_clean_ok s
      { b with is_cancelled := true, is_confirmed := false,
               payment_status := PaymentStatus.failed }
      pk now trip bus ht hbus (by simp) hseat hany (by simp)
    rw [booking_update_ok s pk _ now hclean (by simp [constraintViolated])]
    rfl

def cutoffStore (dep : Int) : Store :=
  { buses := [(1, witBus)], trips := [(1, ⟨1, dep, 300000, true,
      TripStatus.scheduled⟩)], bookings := [(1, paidBooking)] }

theorem cancel_cutoff_24h_witness :
    cancel_booking (cutoffStore 86340) 1 7 0 = .error Err.tooLateToCancel ∧
    excOk (cancel_booking (cutoffStore 86460) 1 7 0) = true := by
  constructor
  · exact (cancel_cutoff_24h (cutoffStore 86340) 1 7 0 paidBooking
      ⟨1, 86340, 300000, true, TripStatus.scheduled⟩ witBus
      (by rfl) rfl rfl (by rfl) (by rfl) (by decide) (by decide)
      (by decide)).1 (by decide)
  · exact (cancel_cutoff_24h (cutoffStore 86460) 1 7 0 paidBooking
      ⟨1, 86460, 300000, true, TripStatus.scheduled⟩ witBus
      (by rfl) rfl rfl (by rfl) (by rfl) (by decide) (by decide)
      (by decide)).2 (by decide)

/-- Every booking of the trip is cancelled, unconfirmed and failed after
the cascade of `cancel_trip`. -/
theorem cancelCascade_all (s : Store) (tp : Nat) :
    ∀ p ∈ (cancelCascade s tp).bookings, p.2.tripId = tp →
      p.2.is_cancelled = true ∧ p.2.is_confirmed = false ∧
      p.2.payment_status = PaymentStatus.failed := by
  intro p hp htp
  simp only [cancelCascade, List.mem_map] at hp
  obtain ⟨q, hq, hfq⟩ := hp
  by_cases h : q.2.tripId = tp
  · subst hfq
    simp [h]
  · subst hfq
    rw [if_neg h] at htp
    exact absurd htp h

def pastTripStore : Store :=
  { buses := [(1, witBus)],
    trips := [(1, ⟨1, -100, 300000, true, TripStatus.scheduled⟩)],
    bookings := [(1, paidBooking)] }

/-- C7 counterexample: on a trip that is not cancelled but whose departure
time already passed, `cancel_trip` does not cancel the trip — saving the
trip re-runs `Trip.full_clean`, which rejects the past departure, so the
call fails with a validation error and changes nothing. -/
theorem cancel_trip_past_departure_fails :
    cancel_trip pastTripStore 1 0 = .error Err.departureInPast ∧
    TripStatus.scheduled ≠ TripStatus.cancelled :=
  ⟨by rfl, by decide⟩

/-- C7 amended: provided the trip row resolves and still passes model
validation (departure not in the past, arrival after departure),
`cancel_trip` on a non-cancelled trip saves the trip as cancelled and
inactive and, in one bulk update, marks every booking of the trip
cancelled, unconfirmed and failed; on an already-cancelled trip it fails
with the already-cancelled error and changes no state. -/
theorem cancel_trip_effects (s : Store) (tp : Nat) (now : Int) (t : Trip)
    (ht : s.findTrip tp = some t)
    (hfuture : now ≤ t.departure_time)
    (harr : t.departure_time < t.arrival_time) :
    (t.status = TripStatus.cancelled →
      cancel_trip s tp now = .error Err.tripAlreadyCancelled) ∧
    (¬(t.status = TripStatus.cancelled) →
      cancel_trip s tp now = .ok (cancelCascade (updTrips s tp
        { t with status := TripStatus.cancelled, is_active := false }) tp)) ∧
    (∀ p ∈ (cancelCascade (updTrips s tp
        { t with status := TripStatus.cancelled,
                 is_active := false }) tp).bookings,
      p.2.tripId = tp → p.2.is_cancelled = true ∧ p.2.is_confirmed = false ∧
        p.2.payment_status = PaymentStatus.failed) := by
  have hclean : trip_clean
      { t with status := TripStatus.cancelled, is_active := false } now =
      .ok () := by
    unfold trip_clean
    have e1 : ({ t with status := TripStatus.cancelled, is_active := false } : Trip).arrival_time = t.arrival_time := rfl
    have e2 : ({ t with status := TripStatus.cancelled, is_active := false } : Trip).departure_time = t.departure_time := rfl
    rw [e1, e2, if_neg (not_le.mpr harr), if_neg (not_lt.mpr hfuture)]
  refine ⟨?_, ?_, cancelCascade_all _ _⟩
  · intro hc
    unfold cancel_trip
    rw [ht]
    show (if t.status = TripStatus.cancelled then _ else _) = _
    rw [if_pos hc]
  · intro hc
    unfold cancel_trip
    rw [ht]
    show (if t.status = TripStatus.cancelled then _ else _) = _
    rw [if_neg hc]
    unfold trip_update
    rw [hclean]

theorem cancel_trip_effects_witness :
    cancel_trip paidStore 1 0 = .ok (cancelCascade (updTrips paidStore 1
      ⟨1, 200000, 300000, false, TripStatus.cancelled⟩) 1) :=
  (cancel_trip_effects paidStore 1 0 witTrip (by rfl) (by decide)
    (by decide)).2.1 (by decide)

/-- C9: once the departure time of a (validly scheduled) trip has passed,
neither `complete_trip` nor `cancel_trip` can succeed: saving the trip
re-runs `Trip.full_clean`, which rejects the past departure, so both
calls fail with the past-departure validation error (or an earlier status
error) and the trip can never reach a terminal status after departure. -/
theorem terminal_status_blocked_after_departure (s : Store) (tp : Nat)
    (now : Int) (t : Trip) (ht : s.findTrip tp = some t)
    (hpast : t.departure_time < now)
    (harr : t.departure_time < t.arrival_time) :
    (t.status = TripStatus.scheduled →
      complete_trip s tp now = .error Err.departureInPast) ∧
    (¬(t.status = TripStatus.cancelled) →
      cancel_trip s tp now = .error Err.departureInPast) ∧
    excOk (complete_trip s tp now) = false ∧
    excOk (cancel_trip s tp now) = false := by
  have hclean : ∀ st : TripStatus, ∀ ia : Bool,
      trip_clean { t with status := st, is_active := ia } now =
        .error Err.departureInPast := by
    intro st ia
    unfold trip_clean
    have e1 : ({ t with status := st, is_active := ia } : Trip).arrival_time = t.arrival_time := rfl
    have e2 : ({ t with status := st, is_active := ia } : Trip).departure_time = t.departure_time := rfl
    rw [e1, e2, if_neg (not_le.mpr harr), if_pos hpast]
  have hcompl : t.status = TripStatus.scheduled →
      complete_trip s tp now = .error Err.departureInPast := by
    intro hs
    unfold complete_trip
    rw [ht]
    show (if ¬(t.status = TripStatus.scheduled) then _ else _) = _
    rw [if_neg (by simp [hs])]
    unfold trip_update
    rw [hclean]
  have hcanc : ¬(t.status = TripStatus.cancelled) →
      cancel_trip s tp now = .error Err.departureInPast := by
    intro hc
    unfold cancel_trip
    rw [ht]
    show (if t.status = TripStatus.cancelled then _ else _) = _
    rw [if_neg hc]
    unfold trip_update
    rw [hclean]
  refine ⟨hcompl, hcanc, ?_, ?_⟩
  · by_cases hs : t.status = TripStatus.scheduled
    · rw [hcompl hs]
      rfl
    · unfold complete_trip
      rw [ht]
      show excOk (if ¬(t.status = TripStatus.scheduled) then _ else _) = _
      rw [if_pos hs]
      rfl
  · by_cases hc : t.status = TripStatus.cancelled
    · unfold cancel_trip
      rw [ht]
      show excOk (if t.status = TripStatus.cancelled then _ else _) = _
      rw [if_pos hc]
      rfl
    · rw [hcanc hc]
      rfl

theorem terminal_status_blocked_after_departure_witness :
    complete_trip pastTripStore 1 0 = .error Err.departureInPast ∧
    cancel_trip pastTripStore 1 0 = .error Err.departureInPast :=
  ⟨(terminal_status_blocked_after_departure pastTripStore 1 0
      ⟨1, -100, 300000, true, TripStatus.scheduled⟩ (by rfl) (by decide)
      (by decide)).1 (by decide),
   (terminal_status_blocked_after_departure pastTripStore 1 0
      ⟨1, -100, 300000, true, TripStatus.scheduled⟩ (by rfl) (by decide)
      (by decide)).2.1 (by decide)⟩

theorem error_ne_error {α : Type} {e1 e2 : Err} (hne : e1 ≠ e2)
    (h : (Except.error e1 : Except Err α) = Except.error e2) : False := by
  injection h with h
  exact hne h

def freshStore : Store :=
  { buses := [(1, witBus)], trips := [(1, witTrip)], bookings := [] }

/-- C8 counterexample: seat number 0 lies outside [1, capacity], yet the
range validation of `Booking.clean` only rejects seats above capacity, so
the service create path accepts seat 0 on a bookable trip and inserts a
booking row for it instead of failing with a seat-range error. -/
theorem seat_zero_accepted :
    create_booking freshStore 9 1 0 0 =
      .ok ({ buses := [(1, witBus)], trips := [(1, witTrip)],
             bookings := [(1, serviceRow 9 1 0)] }, 1) ∧
    (serviceRow 9 1 0).seat_number = 0 :=
  ⟨by rfl, rfl⟩

/-- C8 amended: when the booking references a resolvable trip and bus and
the cancelled-trip check does not fire, `Booking.clean` fails with the
seat-range error exactly when `seat_number > bus.capacity`; the check runs
before the seat-availability and trip-full checks (the equivalence holds
whatever those would say), and a seat number below 1 — seat 0, the only
such value the non-negative field admits — is not rejected by it. -/
theorem seat_range_check_iff (s : Store) (b : Booking) (selfPk : Option Nat)
    (now : Int) (t : Trip) (bus : Bus)
    (ht : s.findTrip b.tripId = some t) (hbus : s.findBus t.busId = some bus)
    (hst : ¬(t.status = TripStatus.cancelled ∧ b.is_cancelled = false)) :
    booking_clean s b selfPk now = .error Err.seatExceedsCapacity ↔
      bus.capacity < b.seat_number := by
  unfold booking_clean
  rw [ht]
  show ((match s.findBus t.busId with
    | none => Except.error Err.notFound
    | some bus => _) = _) ↔ _
  rw [hbus]
  show ((if t.status = TripStatus.cancelled ∧ b.is_cancelled = false
    then _ else _) = _) ↔ _
  rw [if_neg hst]
  constructor
  · intro h
    by_contra hcap
    rw [if_neg hcap] at h
    split at h
    · exact error_ne_error (by decide) h
    · split at h
      · exact error_ne_error (by decide) h
      · exact Except.noConfusion h
  · intro hcap
    rw [if_pos hcap]

theorem seat_range_check_iff_witness :
    booking_clean freshStore (serviceRow 9 1 5) none 0 =
      .error Err.seatExceedsCapacity :=
  (seat_range_check_iff freshStore (serviceRow 9 1 5) none 0 witTrip witBus
    (by rfl) (by rfl) (by decide)).mpr (by decide)

/-- Rewriting the row under `pk` leaves the constraint scan (which excludes
`pk` itself) unchanged. -/
theorem constraintViolated_upd (s : Store) (pk : Nat) (c : Booking) :
    constraintViolated (updBookings s pk c) c (some pk) =
      constraintViolated s c (some pk) := by
  unfold constraintViolated updBookings
  have hfun : (notCancelledSame c (some pk)) ∘
      (fun p : Nat × Booking => if p.1 = pk then (pk, c) else p) =
      notCancelledSame c (some pk) := by
    funext p
    by_cases hp : p.1 = pk
    · simp [notCancelledSame, hp]
    · simp [hp]
  rw [List.any_map, hfun]

theorem updBookings_idem (s : Store) (pk : Nat) (c : Booking) :
    updBookings (updBookings s pk c) pk c = updBookings s pk c := by
  unfold updBookings
  simp only [List.map_map]
  have hfun : ((fun p : Nat × Booking => if p.1 = pk then (pk, c) else p) ∘
      (fun p : Nat × Booking => if p.1 = pk then (pk, c) else p)) =
      (fun p : Nat × Booking => if p.1 = pk then (pk, c) else p) := by
    funext p
    by_cases hp : p.1 = pk <;> simp [Function.comp, hp]
  rw [hfun]

/-- C3 counterexample: the API confirmation path (`FakePaymentAPIView`)
marks the booking paid and confirmed but does not clear
`hold_expires_at`, so the claim that every successful confirmation clears
the hold expiry fails on that path. -/
theorem fake_payment_keeps_hold_expiry :
    fake_payment staleStore 1 7 0 =
      .ok { buses := [(1, witBus)], trips := [(1, witTrip)],
            bookings :=
              [(1, ⟨7, 1, 1, true, false, PaymentStatus.paid, some 10⟩)] } ∧
    (⟨7, 1, 1, true, false, PaymentStatus.paid,
      some 10⟩ : Booking).hold_expires_at ≠ none :=
  ⟨by rfl, by decide⟩

/-- C3 amended: the frontend `payment_page` confirmation does set
`payment_status = paid`, `is_confirmed = true` and clear `hold_expires_at`,
and — provided model validation accepts the row at both saves, notably the
capacity check — re-confirming the already-paid booking through the same
page succeeds and returns the store unchanged; the API fake-payment path,
by contrast, leaves `hold_expires_at` as it was. -/
theorem payment_page_confirm_idempotent (s : Store) (pk u : Nat) (now : Int)
    (b : Booking) (hb : s.findBooking pk = some b) (hu : b.userId = u)
    (hnc : b.is_cancelled = false)
    (hcl1 : booking_clean s (confirmedRow b) (some pk) now = .ok ())
    (hcv1 : constraintViolated s (confirmedRow b) (some pk) = false)
    (hcl2 : booking_clean (updBookings s pk (confirmedRow b)) (confirmedRow b)
      (some pk) now = .ok ()) :
    payment_page_pay s pk u now = .ok (updBookings s pk (confirmedRow b)) ∧
    (updBookings s pk (confirmedRow b)).findBooking pk =
      some (confirmedRow b) ∧
    (confirmedRow b).payment_status = PaymentStatus.paid ∧
    (confirmedRow b).is_confirmed = true ∧
    (confirmedRow b).hold_expires_at = none ∧
    payment_page_pay (updBookings s pk (confirmedRow b)) pk u now =
      .ok (updBookings s pk (confirmedRow b)) := by
  have hnu : ¬(b.userId ≠ u) := fun hh => hh hu
  have hncl : ¬(b.is_cancelled = true) := by rw [hnc]; simp
  have hupd1 := booking_update_ok s pk (confirmedRow b) now hcl1 hcv1
  have h1 : payment_page_pay s pk u now =
      .ok (updBookings s pk (confirmedRow b)) := by
    unfold payment_page_pay
    rw [hb]
    show (if b.userId ≠ u then _ else _) = _
    rw [if_neg hnu, if_neg hncl]
    exact hupd1
  have hfind : (updBookings s pk (confirmedRow b)).findBooking pk =
      some (confirmedRow b) :=
    booking_update_find hupd1 (by rw [hb]; rfl)
  refine ⟨h1, hfind, rfl, rfl, rfl, ?_⟩
  have hupd2 := booking_update_ok (updBookings s pk (confirmedRow b)) pk
    (confirmedRow b) now hcl2
    (by rw [constraintViolated_upd]; exact hcv1)
  rw [updBookings_idem] at hupd2
  unfold payment_page_pay
  rw [hfind]
  show (if (confirmedRow b).userId ≠ u then _ else _) = _
  rw [if_neg (show ¬((confirmedRow b).userId ≠ u) from fun hh => hh hu)]
  rw [if_neg (show ¬((confirmedRow b).is_cancelled = true) from by
    simp [confirmedRow, hnc])]
  exact hupd2

theorem payment_page_confirm_idempotent_witness :
    payment_page_pay staleStore 1 7 0 =
        .ok (updBookings staleStore 1 (confirmedRow staleHold)) ∧
      (updBookings staleStore 1 (confirmedRow staleHold)).findBooking 1 =
        some (confirmedRow staleHold) ∧
      (confirmedRow staleHold).payment_status = PaymentStatus.paid ∧
      (confirmedRow staleHold).is_confirmed = true ∧
      (confirmedRow staleHold).hold_expires_at = none ∧
      payment_page_pay (updBookings staleStore 1 (confirmedRow staleHold))
          1 7 0 =
        .ok (updBookings staleStore 1 (confirmedRow staleHold)) :=
  payment_page_confirm_idempotent staleStore 1 7 0 staleHold (by rfl) rfl rfl
    (by rfl) (by rfl) (by rfl)

/-- Seat occupancy per the section-3 activity predicate alone. This
definition follows the wording of the spec for the availability
calculator, for comparison with the `available_seats` the source
implements. -/
def specSeatActive (s : Store) (tripPk : Nat) (now : Int) (seat : Nat) :
    Bool :=
  s.bookings.any (fun p => decide (p.2.tripId = tripPk) &&
    decide (p.2.seat_number = seat) && Booking.activeAt p.2 now)

/-- Availability as the spec words it: the seats `1..capacity` not active
per the section-3 predicate. -/
def availableSeats_spec (s : Store) (tripPk : Nat) (now : Int) :
    Option (List Nat) :=
  match s.findTrip tripPk with
  | none => none
  | some trip =>
    match s.findBus trip.busId with
    | none => none
    | some bus =>
      some ((List.range' 1 bus.capacity).filter
        (fun seat => !specSeatActive s tripPk now seat))

def refundedStore : Store :=
  { buses := [(1, witBus)], trips := [(1, witTrip)],
    bookings := [(1, ⟨7, 1, 1, true, false, PaymentStatus.refunded, none⟩)] }

/-- C6 counterexample: a confirmed, non-cancelled booking whose payment
status is refunded is active per the section-3 predicate, yet
`booked_seats` excludes refunded and failed rows, so `available_seats`
reports its seat as free — the code does not equal the section-3
complement. -/
theorem available_seats_ignores_refunded_confirmed :
    available_seats refundedStore 1 0 = some [1, 2] ∧
    availableSeats_spec refundedStore 1 0 = some [2] ∧
    Booking.activeAt ⟨7, 1, 1, true, false, PaymentStatus.refunded, none⟩ 0 =
      true :=
  ⟨by rfl, by rfl, by rfl⟩

/-- C6 amended: `booked_seats` uses the section-3 activity predicate
strengthened by an extra exclusion of refunded and failed rows; therefore
`available_seats` agrees with the section-3 complement exactly on stores
where no non-cancelled confirmed booking of the trip has a refunded or
failed payment status (pending holds never trigger the difference). -/
theorem available_seats_spec_agreement (s : Store) (tp : Nat) (now : Int)
    (hgood : ∀ p ∈ s.bookings, p.2.tripId = tp → p.2.is_cancelled = false →
      p.2.is_confirmed = true →
      ¬(p.2.payment_status = PaymentStatus.refunded ∨
        p.2.payment_status = PaymentStatus.failed)) :
    available_seats s tp now = availableSeats_spec s tp now := by
  unfold available_seats availableSeats_spec
  cases htr : s.findTrip tp with
  | none => rfl
  | some trip =>
    show (match s.findBus trip.busId with
      | none => none
      | some bus => some ((List.range' 1 bus.capacity).filter
          (fun seat => !(booked_seats s tp now).contains seat))) =
      (match s.findBus trip.busId with
      | none => none
      | some bus => some ((List.range' 1 bus.capacity).filter
          (fun seat => !specSeatActive s tp now seat)))
    cases hbu : s.findBus trip.busId with
    | none => rfl
    | some bus =>
      show some ((List.range' 1 bus.capacity).filter
          (fun seat => !(booked_seats s tp now).contains seat)) =
        some ((List.range' 1 bus.capacity).filter
          (fun seat => !specSeatActive s tp now seat))
      congr 1
      refine List.filter_congr ?_
      intro seat hseat
      congr 1
      rw [Bool.eq_iff_iff]
      constructor
      · intro hc
        have hmem : seat ∈ booked_seats s tp now := List.elem_iff.mp hc
        unfold booked_seats at hmem
        rw [List.mem_map] at hmem
        obtain ⟨p, hpf, hps⟩ := hmem
        rw [List.mem_filter] at hpf
        obtain ⟨hpmem, hpred⟩ := hpf
        simp only [Bool.and_eq_true, decide_eq_true_eq, Bool.not_eq_true',
          Bool.or_eq_true] at hpred
        obtain ⟨⟨⟨htp, hcanc⟩, _⟩, hact⟩ := hpred
        refine List.any_eq_true.mpr ⟨p, hpmem, ?_⟩
        simp only [Bool.and_eq_true, decide_eq_true_eq]
        refine ⟨⟨htp, hps⟩, ?_⟩
        unfold Booking.activeAt
        rw [hcanc]
        simp only [Bool.not_false, Bool.true_and]
        rcases hact with hconf | hhold
        · rw [hconf]
          simp
        · simp [hhold]
      · intro ha
        unfold specSeatActive at ha
        rw [List.any_eq_true] at ha
        obtain ⟨p, hpmem, hpred⟩ := ha
        simp only [Bool.and_eq_true, decide_eq_true_eq] at hpred
        obtain ⟨⟨htp, hps⟩, hact⟩ := hpred
        have hcanc : p.2.is_cancelled = false := activeAt_not_cancelled hact
        unfold Booking.activeAt at hact
        rw [hcanc] at hact
        simp only [Bool.not_false, Bool.true_and, Bool.or_eq_true,
          Bool.and_eq_true, decide_eq_true_eq] at hact
        have hnotrf : ¬(p.2.payment_status = PaymentStatus.refunded ∨
            p.2.payment_status = PaymentStatus.failed) := by
          rcases hact with hconf | ⟨hpend, _⟩
          · exact hgood p hpmem htp hcanc hconf
          · rw [hpend]
            rintro (hh | hh) <;> exact PaymentStatus.noConfusion hh
        have hmem : seat ∈ booked_seats s tp now := by
          unfold booked_seats
          rw [List.mem_map]
          refine ⟨p, ?_, hps⟩
          rw [List.mem_filter]
          refine ⟨hpmem, ?_⟩
          simp only [Bool.and_eq_true, decide_eq_true_eq, Bool.not_eq_true',
            Bool.or_eq_false_iff, decide_eq_false_iff_not]
          refine ⟨⟨⟨htp, hcanc⟩,
            fun hh => hnotrf (Or.inl hh), fun hh => hnotrf (Or.inr hh)⟩, ?_⟩
          rcases hact with hconf | ⟨hpend, hhold⟩
          · rw [hconf]
            simp
          · rw [hpend, hhold]
            simp
        exact List.elem_iff.mpr hmem

theorem available_seats_spec_agreement_witness :
    available_seats staleStore 1 50 = availableSeats_spec staleStore 1 50 :=
  available_seats_spec_agreement staleStore 1 50 (by decide)

end BusRes
